import Mathlib

/-!
Shallow embedding of the SEPTA holiday-bus-tracker backend
(`src/backend/lib/trip-updates.js`, `src/backend/lib/gtfs-loader.js`,
`src/backend/lib/route-predictor.js`, `src/backend/lib/bus-positions.js`)
with theorems checking the natural-language specification against it.

Modelling conventions:
* JS numbers holding integral quantities (seconds, delays, unix stamps,
  sequence numbers) become `Int`/`Nat`; geographic coordinates become `ℚ`.
* JS `null`/`undefined` becomes `Option`.
* The floating-point haversine distance is abstracted to an arbitrary
  rational-valued distance function carried in the environment; all
  geometry statements are proved for every such function.
* `YYYYMMDD` date keys (strings in the source) become `Nat`: on
  fixed-width decimal strings, JS string comparison coincides with
  numeric comparison.
* Local-time conversion of a unix timestamp (`new Date(t*1000)` then
  reading hours/minutes/seconds) is timezone-dependent and is carried
  in the environment as an uninterpreted function `localSecondsOfDay`.
-/

/-! ## Wire structures of the trip-update feed (GTFS-RT) -/

/-- `arrival` / `departure` object of a decoded StopTimeUpdate:
optional absolute unix time and optional delay in seconds. -/
structure TimeEvent where
  time : Option Int
  delay : Option Int
deriving DecidableEq, Repr

/-- One decoded `stopTimeUpdate` entry of the wire feed. -/
structure StopTimeUpdate where
  stopSequence : Option Nat
  stopId : Option String
  arrival : Option TimeEvent
  departure : Option TimeEvent
deriving DecidableEq, Repr

/-- One decoded feed entity carrying a trip update
(`entity.tripUpdate.trip.tripId` plus its stop-time updates). -/
structure TripUpdateEntity where
  tripId : Option String
  stopTimeUpdates : List StopTimeUpdate
deriving DecidableEq, Repr

/-- The record stored in the Trip-Update Cache for one (trip, stopSequence):
`{stopId, arrivalTime, arrivalDelay, departureTime, departureDelay}`. -/
structure Prediction where
  stopId : Option String
  arrivalTime : Option Int
  arrivalDelay : Option Int
  departureTime : Option Int
  departureDelay : Option Int
deriving DecidableEq, Repr

/-- `stu.arrival?.time ? Number(stu.arrival.time) : null` — note the JS
truthiness test: a present timestamp equal to `0` is dropped. -/
def truthyTime (ev : Option TimeEvent) : Option Int :=
  match ev with
  | none => none
  | some e =>
    match e.time with
    | none => none
    | some t => if t = 0 then none else some t

/-- `stu.arrival?.delay ?? null` — nullish coalescing keeps a `0` delay. -/
def coalesceDelay (ev : Option TimeEvent) : Option Int :=
  ev.bind (·.delay)

/-- Conversion of one wire stop-time update into the cached record
(body of the inner loop of `fetchTripUpdates`). -/
def toPrediction (stu : StopTimeUpdate) : Prediction :=
  { stopId := stu.stopId
  , arrivalTime := truthyTime stu.arrival
  , arrivalDelay := coalesceDelay stu.arrival
  , departureTime := truthyTime stu.departure
  , departureDelay := coalesceDelay stu.departure }

/-! ## Trip-Update Cache (`trip-updates.js`) -/

/-- The per-trip map `Map<stopSequence, StopTimeUpdate>`. -/
def PredMap : Type := Nat → Option Prediction

/-- The cache `Map<tripId, Map<stopSequence, StopTimeUpdate>>`. -/
def Cache : Type := String → Option PredMap

/-- The empty cache (module initial state). -/
def emptyCache : Cache := fun _ => none

/-- `Map.set` on the per-trip map: later insertions overwrite. -/
def predMapSet (m : PredMap) (k : Nat) (v : Prediction) : PredMap :=
  fun k2 => if k2 = k then some v else m k2

/-- The entries of one entity's stop-time updates that carry a
`stopSequence` (the inner loop keeps exactly those), keyed and converted. -/
def keyedUpdates (stus : List StopTimeUpdate) : List (Nat × Prediction) :=
  stus.filterMap fun stu =>
    match stu.stopSequence with
    | some seq => some (seq, toPrediction stu)
    | none => none

/-- Build the per-trip map by inserting the keyed updates in feed order
(so a repeated `stopSequence` keeps the last occurrence, as `Map.set` does). -/
def buildStopUpdates (stus : List StopTimeUpdate) : PredMap :=
  (keyedUpdates stus).foldl (fun m kv => predMapSet m kv.1 kv.2) (fun _ => none)

/-- `Map.set` on the cache: later trips with the same id overwrite. -/
def cacheSet (c : Cache) (k : String) (v : PredMap) : Cache :=
  fun k2 => if k2 = k then some v else c k2

/-- Processing of one feed entity of the outer loop of
`fetchTripUpdates`: keep it iff its `tripUpdate.trip.tripId` is truthy
(present and non-empty) and its keyed stop-update map is non-empty
(`stopUpdates.size > 0`). -/
def cacheInsertStep (c : Cache) (ent : TripUpdateEntity) : Cache :=
  match ent.tripId with
  | some tid =>
    if tid ≠ "" ∧ keyedUpdates ent.stopTimeUpdates ≠ [] then
      cacheSet c tid (buildStopUpdates ent.stopTimeUpdates)
    else c
  | none => c

/-- Build the fresh cache from the decoded feed entities. -/
def buildCache (entities : List TripUpdateEntity) : Cache :=
  entities.foldl cacheInsertStep emptyCache

/-- Result of one fetch-and-decode attempt of a realtime feed. -/
inductive FetchOutcome (α : Type) where
  | fetchError : FetchOutcome α
  | httpError (status : Nat) : FetchOutcome α
  | decodeError : FetchOutcome α
  | ok (value : α) : FetchOutcome α

/-- Any of the three failure modes (`fetch` rejection, `!response.ok`,
protobuf decode throw) lands in the same `catch` block. -/
def FetchOutcome.isFailure {α : Type} : FetchOutcome α → Prop
  | .ok _ => False
  | _ => True

instance {α : Type} (r : FetchOutcome α) : Decidable r.isFailure := by
  cases r <;> simp [FetchOutcome.isFailure] <;> infer_instance

/-- One `fetchTripUpdates` cycle as a state transition on the cache: on
success the cache is replaced by the freshly built one; on any failure the
previous cache is kept (the `catch` block only logs). -/
def fetchTripUpdatesStep (r : FetchOutcome (List TripUpdateEntity)) (cache : Cache) : Cache :=
  match r with
  | .ok entities => buildCache entities
  | _ => cache

/-- `getStopPrediction(tripId, stopSequence)`:
`tripUpdatesCache.get(tripId)?.get(stopSequence) || null`. -/
def getStopPrediction (cache : Cache) (tripId : String) (stopSequence : Nat) : Option Prediction :=
  match cache tripId with
  | none => none
  | some m => m stopSequence

/-! ## Static schedule store (`gtfs-loader.js`) -/

/-- One static trip record (`trips.json`). -/
structure Trip where
  routeId : String
  serviceId : String
  shapeId : Option String
  directionId : Option Nat
  tripHeadsign : Option String
deriving DecidableEq, Repr

/-- One static stop-time record (`stop_times.json`): raw `HH:MM:SS`
strings plus the pre-parsed `arrivalSeconds` (null when unparseable). -/
structure StopTime where
  stopId : String
  stopSequence : Nat
  arrivalTime : Option String
  departureTime : Option String
  arrivalSeconds : Option Int
deriving DecidableEq, Repr

/-- One static stop record (`stops.json`). -/
structure Stop where
  name : String
  lat : ℚ
  lon : ℚ
deriving DecidableEq, Repr

/-- One shape vertex (`shapes.json`), in sequence order. -/
structure ShapePoint where
  lat : ℚ
  lon : ℚ
deriving DecidableEq, Repr

/-- One weekly service calendar (`calendar.json`); date bounds as
`YYYYMMDD` numerals. -/
structure ServiceCalendar where
  sunday : Bool
  monday : Bool
  tuesday : Bool
  wednesday : Bool
  thursday : Bool
  friday : Bool
  saturday : Bool
  startDate : Nat
  endDate : Nat
deriving DecidableEq, Repr

/-- One calendar exception (`calendar_dates.json`). -/
structure CalendarException where
  date : Nat
  exceptionType : Int
deriving DecidableEq, Repr

/-- A JS `Date` value, reduced to the fields the backend reads from it:
local `YYYYMMDD` key (`formatDate`), local day of week (`getDay()`,
`0 = Sunday`), and local seconds since midnight (`getSecondsOfDay`). -/
structure DateTime where
  dateKey : Nat
  weekday : Fin 7
  secondsOfDay : Int
deriving DecidableEq, Repr

/-- The loaded schedule store plus ambient parameters of the runtime:
the Trip-Update Cache the predictor reads, the (floating-point in the
source, abstracted here) haversine distance, and the local-timezone
seconds-of-day of a unix timestamp. -/
structure Env where
  trips : String → Option Trip
  stopTimes : String → Option (List StopTime)
  stops : String → Option Stop
  shapes : String → Option (List ShapePoint)
  calendar : String → Option ServiceCalendar
  calendarDates : String → Option (List CalendarException)
  cache : Cache
  dist : ℚ → ℚ → ℚ → ℚ → ℚ
  localSecondsOfDay : Int → Int

/-- `cal[days[dayOfWeek]]` with
`days = ['sunday','monday',...,'saturday']` and `getDay()` weekday. -/
def dayFlag (cal : ServiceCalendar) : Fin 7 → Bool
  | 0 => cal.sunday
  | 1 => cal.monday
  | 2 => cal.tuesday
  | 3 => cal.wednesday
  | 4 => cal.thursday
  | 5 => cal.friday
  | 6 => cal.saturday

/-- `isServiceActiveOnDate(serviceId, date)` from `gtfs-loader.js`:
unknown service ⇒ false; date key outside `[startDate, endDate]` ⇒ false;
first matching calendar exception decides (`exceptionType === 1`);
otherwise the weekday flag. -/
def isServiceActiveOnDate (env : Env) (serviceId : String) (date : DateTime) : Bool :=
  match env.calendar serviceId with
  | none => false
  | some cal =>
    if date.dateKey < cal.startDate ∨ date.dateKey > cal.endDate then
      false
    else
      match ((env.calendarDates serviceId).getD []).find? (fun exc => exc.date = date.dateKey) with
      | some exc => exc.exceptionType = 1
      | none => dayFlag cal date.weekday

/-! ## Route predictor (`route-predictor.js`) -/

/-- `String(n).padStart(2, '0')`. -/
def pad2 (n : Int) : String :=
  let s := toString n
  if s.length < 2 then "0" ++ s else s

/-- The inline `HH:MM:SS` formatter of the delay-only branch of
`getUpcomingRoute`: `Math.floor` is flooring division (`Int.fdiv`) and
JS `%` is truncating remainder (`Int.tmod`). -/
def formatHMS (e : Int) : String :=
  pad2 ((e.fdiv 3600).tmod 24) ++ ":" ++ pad2 ((e.tmod 3600).fdiv 60) ++ ":" ++ pad2 (e.tmod 60)

/-- `unixToTimeString(t)`: format the local hours/minutes/seconds of
`new Date(t*1000)`, i.e. of the environment's local seconds-of-day. -/
def unixToTimeString (env : Env) (t : Int) : String :=
  formatHMS (env.localSecondsOfDay t)

/-- The real-time merge for one stop-time entry with pre-parsed scheduled
arrival `sched`: returns
`(effectiveArrivalSeconds, predictedArrivalTime, arrivalDelay, isRealTime)`.
The four cases correspond to the two sequential `if`s of the source:
no prediction / no arrival fields ⇒ scheduled, nothing predicted;
absolute time present ⇒ its local seconds-of-day (delay reported when
also present); delay only ⇒ scheduled + delay, formatted inline. -/
def effectiveData (env : Env) (tripId : String) (st : StopTime) (sched : Int) :
    Int × Option String × Option Int × Bool :=
  match getStopPrediction env.cache tripId st.stopSequence with
  | none => (sched, none, none, false)
  | some p =>
    match p.arrivalTime, p.arrivalDelay with
    | none, none => (sched, none, none, false)
    | some t, none => (env.localSecondsOfDay t, some (unixToTimeString env t), none, true)
    | some t, some d => (env.localSecondsOfDay t, some (unixToTimeString env t), some d, true)
    | none, some d => (sched + d, some (formatHMS (sched + d)), some d, true)

/-- One record of the `upcomingStops` output list. -/
structure UpcomingStop where
  stopId : String
  name : String
  lat : ℚ
  lon : ℚ
  arrivalTime : Option String
  departureTime : Option String
  stopSequence : Nat
  predictedArrivalTime : Option String
  arrivalDelay : Option Int
  isRealTime : Bool
deriving DecidableEq, Repr

/-- The body of the stop-time loop of `getUpcomingRoute` for one entry:
skip unparseable arrivals, merge the real-time prediction, keep the stop
iff its effective arrival lies in `[nowSec - 60, nowSec + 1800]` and its
`stopId` resolves in the stop table. -/
def buildStopRecord (env : Env) (tripId : String) (now : DateTime) (st : StopTime) :
    Option UpcomingStop :=
  match st.arrivalSeconds with
  | none => none
  | some sched =>
    let nowSec := now.secondsOfDay
    let r := effectiveData env tripId st sched
    if nowSec - 60 ≤ r.1 ∧ r.1 ≤ nowSec + 1800 then
      match env.stops st.stopId with
      | none => none
      | some stop =>
        some
          { stopId := st.stopId
          , name := stop.name
          , lat := stop.lat
          , lon := stop.lon
          , arrivalTime := st.arrivalTime
          , departureTime := st.departureTime
          , stopSequence := st.stopSequence
          , predictedArrivalTime := r.2.1
          , arrivalDelay := r.2.2.1
          , isRealTime := r.2.2.2 }
    else none

/-- Whether a candidate distance beats the best so far: the scan starts
from `minDist = Infinity`, so the first point always wins, then a strict
improvement is required. -/
def betterDist (dp : ℚ) (minD : Option ℚ) : Bool :=
  match minD with
  | none => true
  | some m => dp < m

/-- The linear scan of `findClosestShapePoint`: `i` is the index of the
head of `rest`, `best` the best index so far. -/
def closestScan (d : ℚ → ℚ → ℚ → ℚ → ℚ) (lat lon : ℚ) :
    List ShapePoint → Nat → Option ℚ → Nat → Nat
  | [], _, _, best => best
  | p :: rest, i, minD, best =>
    if betterDist (d lat lon p.lat p.lon) minD then
      closestScan d lat lon rest (i + 1) (some (d lat lon p.lat p.lon)) i
    else closestScan d lat lon rest (i + 1) minD best

/-- `findClosestShapePoint(shapePoints, lat, lon).index`: index of the
first shape point at minimal distance (0 for an empty list). -/
def findClosestShapePoint (d : ℚ → ℚ → ℚ → ℚ → ℚ) (pts : List ShapePoint) (lat lon : ℚ) : Nat :=
  closestScan d lat lon pts 0 none 0

/-- The endpoint index of the emitted segment: the shape point closest to
the last upcoming stop, or the final shape index when no stop is upcoming. -/
def endShapeIdx (env : Env) (pts : List ShapePoint) (ups : List UpcomingStop) : Nat :=
  match ups.getLast? with
  | none => pts.length - 1
  | some lastStop => findClosestShapePoint env.dist pts lastStop.lat lastStop.lon

/-- The geometry block of `getUpcomingRoute`: resolve the shape, project
vehicle and endpoint onto it, and emit
`shapePoints.slice(currentShapeIdx, endShapeIdx + 1)` as `[lon, lat]`
pairs when the vehicle has not passed the endpoint and at least two
points remain. `trip.shapeId` is tested for JS truthiness, so a missing
id and an empty-string id both skip the block. -/
def buildGeometry (env : Env) (trip : Trip) (curLat curLon : ℚ) (ups : List UpcomingStop) :
    Option (List (ℚ × ℚ)) :=
  match trip.shapeId with
  | none => none
  | some sid =>
    if sid = "" then none
    else
      match env.shapes sid with
      | none => none
      | some pts =>
        if pts.length = 0 then none
        else
          let currentShapeIdx := findClosestShapePoint env.dist pts curLat curLon
          let endIdx := endShapeIdx env pts ups
          if currentShapeIdx ≤ endIdx then
            let segmentPoints := (pts.drop currentShapeIdx).take (endIdx + 1 - currentShapeIdx)
            if segmentPoints.length ≥ 2 then
              some (segmentPoints.map (fun p => (p.lon, p.lat)))
            else none
          else none

/-- The full return value of `getUpcomingRoute`. -/
structure RouteResult where
  tripId : String
  routeId : String
  headsign : Option String
  directionId : Option Nat
  upcomingStops : List UpcomingStop
  routeGeometry : Option (List (ℚ × ℚ))
deriving DecidableEq, Repr

/-- `getUpcomingRoute(tripId, currentLat, currentLon, currentTime)`:
null for an unknown trip, an inactive service, or missing/empty
stop-times; otherwise the windowed upcoming stops plus the forward
geometry. -/
def getUpcomingRoute (env : Env) (tripId : String) (curLat curLon : ℚ) (now : DateTime) :
    Option RouteResult :=
  match env.trips tripId with
  | none => none
  | some trip =>
    if ¬ isServiceActiveOnDate env trip.serviceId now then none
    else
      match env.stopTimes tripId with
      | none => none
      | some sts =>
        if sts.length = 0 then none
        else
          let upcomingStops := sts.filterMap (buildStopRecord env tripId now)
          some
            { tripId := tripId
            , routeId := trip.routeId
            , headsign := trip.tripHeadsign
            , directionId := trip.directionId
            , upcomingStops := upcomingStops
            , routeGeometry := buildGeometry env trip curLat curLon upcomingStops }

/-! ## Position reconciler and snapshot (`bus-positions.js`) -/

/-- `position` object of a decoded vehicle entity. -/
structure VehiclePos where
  latitude : Option ℚ
  longitude : Option ℚ
  bearing : Option ℚ
  speed : Option ℚ
deriving DecidableEq, Repr

/-- `trip` object of a decoded vehicle entity. -/
structure VehicleTripDesc where
  tripId : Option String
  routeId : Option String
  directionId : Option Nat
  startTime : Option String
  startDate : Option String
deriving DecidableEq, Repr

/-- One decoded entity of the vehicle-position feed. -/
structure VehicleEntity where
  vehicleId : Option String
  position : Option VehiclePos
  trip : Option VehicleTripDesc
  timestamp : Option Int
deriving DecidableEq, Repr

/-- The `HOLIDAY_BUSES` table: `(busId, district, headsign, color)` in
insertion order. -/
def holidayBuses : List (String × String × String × String) :=
  [ ("3090", "Southern", "Beetlejuice", "#e53935")
  , ("3069", "Victory", "The Best Gift Ever", "#43a047")
  , ("3019", "Callowhill", "Santa Paws", "#1e88e5")
  , ("3817", "Midvale", "National Lampoon's Christmas Vacation", "#fdd835")
  , ("3364", "Comly", "Christmas in Wonderland", "#8e24aa")
  , ("3160", "Frankford", "Care Bear Party Bus", "#00897b")
  , ("9034", "Elmwood", "Home Alone", "#f4511e")
  , ("9087", "Elmwood", "Holiday", "#c2185b")
  , ("9053", "Callowhill", "Frosty the Snow Mobile", "#78909c")
  , ("9009", "Woodland", "Star Wars", "#7cb342") ]

/-- `HOLIDAY_BUSES[busId]` as `(district, headsign, color)`. -/
def holidayMeta (busId : String) : Option (String × String × String) :=
  (holidayBuses.find? (fun e => e.1 = busId)).map (·.2)

/-- Membership in `HOLIDAY_BUS_IDS = Set(Object.keys(HOLIDAY_BUSES))`. -/
def isHolidayBusId (busId : String) : Bool :=
  (holidayBuses.find? (fun e => e.1 = busId)).isSome

/-- `HOLIDAY_COLORS = Object.values(HOLIDAY_BUSES).map(b => b.color)`. -/
def holidayColors : List String :=
  holidayBuses.map (fun e => e.2.2.2)

/-- The tracked-group mode of the snapshot (`'holiday'` / `'test'`). -/
inductive Mode where
  | holiday
  | test
deriving DecidableEq, Repr

/-- Module state chosen once at startup: the ordered list of test
vehicle ids (`testBusIdList`; `testBusIds` is its membership set). -/
structure BusConfig where
  testBusIdList : List String

/-- `getBusColor(busId, mode)`; in test mode `indexOf` of an id not in
the list is `-1` and the array access yields `undefined` (`none`). -/
def getBusColor (cfg : BusConfig) (busId : String) (mode : Mode) : Option String :=
  match mode with
  | .test =>
    (cfg.testBusIdList.findIdx? (fun b => b = busId)).map
      (fun i => holidayColors.getD (i % holidayColors.length) "")
  | .holiday =>
    some (((holidayMeta busId).map (·.2.2)).getD (holidayColors.getD 0 ""))

/-- One position record pushed during the decode loop of
`fetchVehiclePositions` (the `basePosition` spread plus `color`). -/
structure BusPosition where
  busId : String
  latitude : Option ℚ
  longitude : Option ℚ
  bearing : Option ℚ
  speed : Option ℚ
  timestamp : Option Int
  tripId : Option String
  routeId : Option String
  directionId : Option Nat
  startTime : Option String
  startDate : Option String
  color : Option String
deriving DecidableEq, Repr

/-- `entity.vehicle.timestamp ? Number(entity.vehicle.timestamp) : null`
(truthiness: a `0` timestamp becomes null). -/
def truthyTimestamp (t : Option Int) : Option Int :=
  match t with
  | none => none
  | some v => if v = 0 then none else some v

/-- The `basePosition` object built for one decoded entity. -/
def basePosition (ent : VehicleEntity) (vid : String) (color : Option String) : BusPosition :=
  { busId := vid
  , latitude := ent.position.bind (·.latitude)
  , longitude := ent.position.bind (·.longitude)
  , bearing := ent.position.bind (·.bearing)
  , speed := ent.position.bind (·.speed)
  , timestamp := truthyTimestamp ent.timestamp
  , tripId := ent.trip.bind (·.tripId)
  , routeId := ent.trip.bind (·.routeId)
  , directionId := ent.trip.bind (·.directionId)
  , startTime := ent.trip.bind (·.startTime)
  , startDate := ent.trip.bind (·.startDate)
  , color := color }

/-- The vehicles of the decode loop that land in the given group: the
entity's vehicle id must be truthy and belong to the group's id set. -/
def groupPositions (cfg : BusConfig) (mode : Mode) (entities : List VehicleEntity) :
    List BusPosition :=
  entities.filterMap fun ent =>
    match ent.vehicleId with
    | none => none
    | some vid =>
      if vid ≠ "" ∧ (match mode with
          | .holiday => isHolidayBusId vid
          | .test => cfg.testBusIdList.contains vid) = true then
        some (basePosition ent vid (getBusColor cfg vid mode))
      else none

/-- JS truthiness of an optional coordinate (`bus.latitude &&
bus.longitude` filter): present and non-zero. -/
def qTruthy (x : Option ℚ) : Bool :=
  match x with
  | none => false
  | some v => v ≠ 0

/-- One point feature of the vehicle FeatureCollection. -/
structure BusFeature where
  busId : String
  routeId : Option String
  color : Option String
  bearing : Option ℚ
  district : Option String
  headsign : Option String
  vehicleType : String
  coordinates : ℚ × ℚ
deriving DecidableEq, Repr

/-- `positionsToGeoJSON(positions, mode)`: keep vehicles with truthy
coordinates; attach district/headsign metadata only in holiday mode;
ids starting with `'9'` are trolleys. -/
def positionsToGeoJSON (positions : List BusPosition) (mode : Mode) : List BusFeature :=
  (positions.filter (fun bus => qTruthy bus.latitude ∧ qTruthy bus.longitude)).filterMap
    fun bus =>
      match bus.latitude, bus.longitude with
      | some lat, some lon =>
        let metadata := match mode with
          | .holiday => holidayMeta bus.busId
          | .test => none
        some
          { busId := bus.busId
          , routeId := bus.routeId
          , color := bus.color
          , bearing := bus.bearing
          , district := metadata.map (·.1)
          , headsign := metadata.map (·.2.1)
          , vehicleType := if bus.busId.startsWith "9" then "trolley" else "bus"
          , coordinates := (lon, lat) }
      | _, _ => none

/-- One feature of the routes FeatureCollection: a `type='route'` line
per vehicle with a forward geometry, or a `type='stop'` point per
upcoming stop. -/
inductive RouteFeature where
  | routeLine (busId : String) (color : Option String) (tripId routeId : String)
      (headsign : Option String) (coordinates : List (ℚ × ℚ)) : RouteFeature
  | stopPoint (busId : String) (color : Option String) (stop : UpcomingStop) : RouteFeature
deriving DecidableEq, Repr

/-- `buildRoutesGeoJSON(buses, currentTime)`: per bus, skip when the
trip id is falsy or a coordinate is null, run the predictor, then emit
the line feature (when a geometry exists) followed by the stop features. -/
def buildRoutesGeoJSON (env : Env) (buses : List BusPosition) (now : DateTime) :
    List RouteFeature :=
  buses.flatMap fun bus =>
    match bus.tripId, bus.latitude, bus.longitude with
    | some t, some lat, some lon =>
      if t = "" then []
      else
        match getUpcomingRoute env t lat lon now with
        | none => []
        | some route =>
          (match route.routeGeometry with
            | some coords =>
              [RouteFeature.routeLine bus.busId bus.color route.tripId route.routeId
                route.headsign coords]
            | none => []) ++
          route.upcomingStops.map (fun s => RouteFeature.stopPoint bus.busId bus.color s)
    | _, _, _ => []

/-- The published snapshot for one group. -/
structure ModeData where
  buses : List BusFeature
  routes : List RouteFeature
deriving DecidableEq, Repr

/-- `currentData`: both groups' snapshots, replaced together. -/
structure CurrentData where
  holiday : ModeData
  test : ModeData
deriving DecidableEq, Repr

/-- One `fetchVehiclePositions` cycle as a state transition on
`currentData`: on success both groups are rebuilt and swapped in as one
value; on fetch, HTTP-status or decode failure the `catch` block only
logs and the previous snapshot is kept. -/
def fetchVehiclePositionsStep (cfg : BusConfig) (env : Env)
    (r : FetchOutcome (List VehicleEntity)) (now : DateTime) (s : CurrentData) : CurrentData :=
  match r with
  | .ok entities =>
    let holidayPositions := groupPositions cfg Mode.holiday entities
    let testPositions := groupPositions cfg Mode.test entities
    { holiday :=
        { buses := positionsToGeoJSON holidayPositions Mode.holiday
        , routes := buildRoutesGeoJSON env holidayPositions now }
    , test :=
        { buses := positionsToGeoJSON testPositions Mode.test
        , routes := buildRoutesGeoJSON env testPositions now } }
  | _ => s

/-- `getBuses(mode)`: the vehicle features of the current snapshot. -/
def getBuses (mode : Mode) (s : CurrentData) : List BusFeature :=
  match mode with
  | .holiday => s.holiday.buses
  | .test => s.test.buses

/-- `getRoutes(mode)`: the route/stop features of the current snapshot. -/
def getRoutes (mode : Mode) (s : CurrentData) : List RouteFeature :=
  match mode with
  | .holiday => s.holiday.routes
  | .test => s.test.routes

/-! ## Helper lemmas -/

/-- Successful-path normal form of `getUpcomingRoute`: known trip,
active service, non-empty stop-times. -/
theorem getUpcomingRoute_eq_of_valid (env : Env) (tripId : String) (curLat curLon : ℚ)
    (now : DateTime) (trip : Trip) (sts : List StopTime)
    (h1 : env.trips tripId = some trip)
    (h2 : isServiceActiveOnDate env trip.serviceId now = true)
    (h3 : env.stopTimes tripId = some sts)
    (h4 : sts ≠ []) :
    getUpcomingRoute env tripId curLat curLon now =
      some
        { tripId := tripId
        , routeId := trip.routeId
        , headsign := trip.tripHeadsign
        , directionId := trip.directionId
        , upcomingStops := sts.filterMap (buildStopRecord env tripId now)
        , routeGeometry :=
            buildGeometry env trip curLat curLon (sts.filterMap (buildStopRecord env tripId now)) } := by
  unfold getUpcomingRoute
  rw [h1]
  simp only [h2, not_true, if_false, h3]
  simp [List.length_eq_zero, h4]

/-- The scan either keeps the incoming best index or returns an index of
one of the scanned points. -/
theorem closestScan_lt_or_eq (d : ℚ → ℚ → ℚ → ℚ → ℚ) (lat lon : ℚ) :
    ∀ (rest : List ShapePoint) (i : Nat) (minD : Option ℚ) (best : Nat),
      closestScan d lat lon rest i minD best < i + rest.length ∨
        closestScan d lat lon rest i minD best = best := by
  intro rest
  induction rest with
  | nil => intro i minD best; right; rfl
  | cons p tl ih =>
    intro i minD best
    unfold closestScan
    cases hb : betterDist (d lat lon p.lat p.lon) minD
    · simp only [hb, Bool.false_eq_true, if_false, List.length_cons]
      rcases ih (i + 1) minD best with h2 | h2
      · left; omega
      · right; exact h2
    · simp only [hb, if_true, List.length_cons]
      rcases ih (i + 1) (some (d lat lon p.lat p.lon)) i with h2 | h2
      · left; omega
      · left; omega

/-- On a non-empty shape the projected index is a valid index. -/
theorem findClosestShapePoint_lt (d : ℚ → ℚ → ℚ → ℚ → ℚ) (pts : List ShapePoint)
    (lat lon : ℚ) (h : pts ≠ []) :
    findClosestShapePoint d pts lat lon < pts.length := by
  cases pts with
  | nil => exact absurd rfl h
  | cons p tl =>
    unfold findClosestShapePoint closestScan
    have hb : betterDist (d lat lon p.lat p.lon) none = true := rfl
    simp only [hb, if_true, List.length_cons]
    rcases closestScan_lt_or_eq d lat lon tl (0 + 1) (some (d lat lon p.lat p.lon)) 0 with h2 | h2
    · omega
    · omega

/-- On a non-empty shape the endpoint index is a valid index. -/
theorem endShapeIdx_lt (env : Env) (pts : List ShapePoint) (ups : List UpcomingStop)
    (h : pts ≠ []) : endShapeIdx env pts ups < pts.length := by
  unfold endShapeIdx
  cases ups.getLast? with
  | none =>
    have hp := List.length_pos.mpr h
    change pts.length - 1 < pts.length
    omega
  | some lastStop => exact findClosestShapePoint_lt _ _ _ _ h

/-- A stop-time entry with a parseable scheduled arrival produces an
upcoming-stop record iff its stop resolves and its effective arrival time
lies in the window. -/
theorem buildStopRecord_isSome (env : Env) (tripId : String) (now : DateTime) (st : StopTime)
    (sched : Int) (hs : st.arrivalSeconds = some sched) :
    (buildStopRecord env tripId now st).isSome = true ↔
      ((env.stops st.stopId).isSome = true ∧
        now.secondsOfDay - 60 ≤ (effectiveData env tripId st sched).1 ∧
        (effectiveData env tripId st sched).1 ≤ now.secondsOfDay + 1800) := by
  unfold buildStopRecord
  rw [hs]
  cases henv : env.stops st.stopId <;> split <;> simp_all

/-- Inserting keyed updates never removes an existing binding. -/
theorem foldSet_isSome_mono :
    ∀ (kvs : List (Nat × Prediction)) (m0 : PredMap) (k : Nat),
      (m0 k).isSome = true →
      ((kvs.foldl (fun m kv => predMapSet m kv.1 kv.2) m0) k).isSome = true := by
  intro kvs
  induction kvs with
  | nil => intro m0 k h; exact h
  | cons a tl ih =>
    intro m0 k h
    simp only [List.foldl_cons]
    apply ih
    unfold predMapSet
    by_cases hk : k = a.1 <;> simp [hk, h]

/-- The per-trip map built from a non-empty keyed update list is
non-empty. -/
theorem buildStopUpdates_nonempty (stus : List StopTimeUpdate)
    (h : keyedUpdates stus ≠ []) :
    ∃ seq, (buildStopUpdates stus seq).isSome = true := by
  cases hk : keyedUpdates stus with
  | nil => exact absurd hk h
  | cons a tl =>
    refine ⟨a.1, ?_⟩
    unfold buildStopUpdates
    rw [hk]
    simp only [List.foldl_cons]
    apply foldSet_isSome_mono
    unfold predMapSet
    simp

/-- Pointwise description of one entity's cache insertion. -/
theorem cacheInsertStep_eq (c : Cache) (ent : TripUpdateEntity) (tid : String) :
    (cacheInsertStep c ent) tid =
      match ent.tripId with
      | some tid2 =>
        if (tid2 ≠ "" ∧ keyedUpdates ent.stopTimeUpdates ≠ []) ∧ tid = tid2 then
          some (buildStopUpdates ent.stopTimeUpdates)
        else c tid
      | none => c tid := by
  obtain ⟨etid, estus⟩ := ent
  cases etid with
  | none => rfl
  | some tid2 =>
    show (if tid2 ≠ "" ∧ keyedUpdates estus ≠ [] then
        cacheSet c tid2 (buildStopUpdates estus) else c) tid = _
    unfold cacheSet
    by_cases h1 : tid2 ≠ "" ∧ keyedUpdates estus ≠ [] <;>
      by_cases h2 : tid = tid2 <;> simp [h1, h2]

/-- A trip bound in the folded cache was either bound before the fold or
bound by one of the folded entities (in which case that entity passed
the keep test). -/
theorem foldCache_mem :
    ∀ (entities : List TripUpdateEntity) (c : Cache) (tid : String) (m : PredMap),
      (entities.foldl cacheInsertStep c) tid = some m →
      c tid = some m ∨
        ∃ ent ∈ entities, ent.tripId = some tid ∧ keyedUpdates ent.stopTimeUpdates ≠ [] ∧
          m = buildStopUpdates ent.stopTimeUpdates := by
  intro entities
  induction entities with
  | nil => intro c tid m h; left; exact h
  | cons ent tl ih =>
    intro c tid m h
    simp only [List.foldl_cons] at h
    rcases ih (cacheInsertStep c ent) tid m h with h2 | h2
    · rw [cacheInsertStep_eq] at h2
      rcases hent : ent.tripId with _ | tid2
      · simp only [hent] at h2; left; exact h2
      · simp only [hent] at h2
        by_cases hkeep : (tid2 ≠ "" ∧ keyedUpdates ent.stopTimeUpdates ≠ []) ∧ tid = tid2
        · rw [if_pos hkeep] at h2
          right
          refine ⟨ent, List.mem_cons_self _ _, ?_, hkeep.1.2, ?_⟩
          · rw [hent, hkeep.2]
          · exact (Option.some_inj.mp h2).symm
        · rw [if_neg hkeep] at h2; left; exact h2
    · right
      obtain ⟨e, he, rest⟩ := h2
      exact ⟨e, List.mem_cons_of_mem _ he, rest⟩

/-! ## Concrete fixtures -/

/-- A computable stand-in distance for witnesses: 0 when the shape
point's longitude equals the query's, else 1 (kernel-evaluable, no
rational arithmetic); the geometry theorems hold for every distance
function. -/
def lonMatchDist : ℚ → ℚ → ℚ → ℚ → ℚ :=
  fun _ lon1 _ lon2 => if lon2 = lon1 then 0 else 1

/-- A straight fixture shape along the equator: points `(0, k)` for
`k = 0 .. 25`. -/
def shapeW : List ShapePoint :=
  (List.range 26).map (fun k => { lat := 0, lon := (k : ℚ) })

/-- Fixture trip. -/
def tripW : Trip :=
  { routeId := "R1", serviceId := "SVC", shapeId := some "SH1"
  , directionId := some 0, tripHeadsign := some "Downtown" }

/-- Fixture stop-times at 08:00:00, 08:10:00, 08:45:00. -/
def st0800 : StopTime :=
  { stopId := "S0", stopSequence := 1, arrivalTime := some "08:00:00"
  , departureTime := some "08:00:00", arrivalSeconds := some 28800 }

def st0810 : StopTime :=
  { stopId := "S1", stopSequence := 2, arrivalTime := some "08:10:00"
  , departureTime := some "08:10:00", arrivalSeconds := some 29400 }

def st0845 : StopTime :=
  { stopId := "S2", stopSequence := 3, arrivalTime := some "08:45:00"
  , departureTime := some "08:45:00", arrivalSeconds := some 31500 }

/-- Fixture calendar active every day of Dec 2025. -/
def calW : ServiceCalendar :=
  { sunday := true, monday := true, tuesday := true, wednesday := true
  , thursday := true, friday := true, saturday := true
  , startDate := 20251201, endDate := 20260101 }

/-- Fixture clock: Monday 2025-12-15 at 08:05:00 local. -/
def nowW : DateTime := { dateKey := 20251215, weekday := 1, secondsOfDay := 29100 }

/-- Fixture environment: one trip `T1` on service `SVC` with three
stop-times and shape `SH1`; empty trip-update cache. -/
def envW : Env :=
  { trips := fun tid => if tid = "T1" then some tripW else none
  , stopTimes := fun tid => if tid = "T1" then some [st0800, st0810, st0845] else none
  , stops := fun sid =>
      if sid = "S0" then some { name := "First", lat := 0, lon := 0 }
      else if sid = "S1" then some { name := "Second", lat := 0, lon := 20 }
      else if sid = "S2" then some { name := "Third", lat := 0, lon := 25 }
      else none
  , shapes := fun sid => if sid = "SH1" then some shapeW else none
  , calendar := fun sid => if sid = "SVC" then some calW else none
  , calendarDates := fun _ => none
  , cache := emptyCache
  , dist := lonMatchDist
  , localSecondsOfDay := fun t => t.emod 86400 }

/-- The fixture environment with an unresolvable stop table. -/
def envC1 : Env := { envW with stops := fun _ => none }

/-- A cached delay-only prediction (`delay = 120`, no absolute time). -/
def predDelay120 : Prediction :=
  { stopId := some "S1", arrivalTime := none, arrivalDelay := some 120
  , departureTime := none, departureDelay := none }

/-- Cache holding only the delay-only prediction for trip `T1`,
stop sequence 2. -/
def cacheC4 : Cache :=
  fun tid =>
    if tid = "T1" then some (fun seq => if seq = 2 then some predDelay120 else none)
    else none

/-- Fixture environment with the delay-only prediction cached. -/
def envC4 : Env := { envW with cache := cacheC4 }

/-- A cached departure-only prediction (both arrival fields absent). -/
def predDepOnly : Prediction :=
  { stopId := some "S1", arrivalTime := none, arrivalDelay := none
  , departureTime := some 1765800600, departureDelay := some 60 }

/-- Cache holding only the departure-only prediction for trip `T1`,
stop sequence 2. -/
def cacheC10 : Cache :=
  fun tid =>
    if tid = "T1" then some (fun seq => if seq = 2 then some predDepOnly else none)
    else none

/-- Fixture environment with the departure-only prediction cached. -/
def envC10 : Env := { envW with cache := cacheC10 }

/-- A feed entity whose only stop-time update carries a `stopSequence`
but neither timestamps nor delays. -/
def entC7 : TripUpdateEntity :=
  { tripId := some "t"
  , stopTimeUpdates :=
      [{ stopSequence := some 5, stopId := some "s", arrival := none, departure := none }] }

/-- A feed entity with one well-formed delay-carrying update. -/
def entC7b : TripUpdateEntity :=
  { tripId := some "t2"
  , stopTimeUpdates :=
      [{ stopSequence := some 7, stopId := some "s7"
       , arrival := some { time := none, delay := some 60 }, departure := none }] }

/-- A non-empty published snapshot for the retention witness. -/
def sC8 : CurrentData :=
  { holiday :=
      { buses :=
          [{ busId := "3090", routeId := some "R1", color := some "#e53935"
           , bearing := some 45, district := some "Southern"
           , headsign := some "Beetlejuice", vehicleType := "bus"
           , coordinates := (Prod.mk (-75) 40) }]
      , routes := [] }
  , test := { buses := [], routes := [] } }

/-! ## Claim theorems -/

/-- C3: `IsServiceActiveOnDate` is inactive for an unknown serviceId and
for a date key outside `[startDate, endDate]`; otherwise a calendar
exception for the date key decides (active iff `exceptionType = 1`,
regardless of weekday), and with no exception the weekly flag for the
date's weekday decides. -/
theorem isServiceActiveOnDate_spec (env : Env) (serviceId : String) (date : DateTime) :
    isServiceActiveOnDate env serviceId date = true ↔
      ∃ cal, env.calendar serviceId = some cal ∧
        cal.startDate ≤ date.dateKey ∧ date.dateKey ≤ cal.endDate ∧
        ((∃ exc, ((env.calendarDates serviceId).getD []).find?
              (fun e => e.date = date.dateKey) = some exc ∧ exc.exceptionType = 1) ∨
          (((env.calendarDates serviceId).getD []).find?
              (fun e => e.date = date.dateKey) = none ∧ dayFlag cal date.weekday = true)) := by
  unfold isServiceActiveOnDate
  cases hcal : env.calendar serviceId with
  | none => simp
  | some cal =>
    simp only []
    by_cases hr : date.dateKey < cal.startDate ∨ date.dateKey > cal.endDate
    · rw [if_pos hr]
      constructor
      · intro h; exact absurd h (by simp)
      · rintro ⟨cal', hcal', h1, h2, -⟩
        rw [Option.some_inj] at hcal'
        subst hcal'
        omega
    · rw [if_neg hr]
      cases hfind : ((env.calendarDates serviceId).getD []).find?
          (fun e => e.date = date.dateKey) with
      | some exc =>
        simp only []
        constructor
        · intro h
          exact ⟨cal, by simp, by omega, by omega, Or.inl ⟨exc, by simp, by simpa using h⟩⟩
        · rintro ⟨cal', hcal', -, -, h | h⟩
          · obtain ⟨exc', hexc', htype⟩ := h
            rw [Option.some_inj] at hexc'
            subst hexc'
            simpa using htype
          · exact absurd h.1 (by simp)
      | none =>
        simp only []
        constructor
        · intro h
          exact ⟨cal, by simp, by omega, by omega, Or.inr ⟨by simp, h⟩⟩
        · rintro ⟨cal', hcal', -, -, h | h⟩
          · obtain ⟨exc', hexc', -⟩ := h
            exact absurd hexc' (by simp)
          · rw [Option.some_inj] at hcal'
            subst hcal'
            exact h.2

/-- C3 witness: the fixture calendar is active on Monday 2025-12-15 and
inactive for an unknown service id. -/
theorem isServiceActiveOnDate_spec_witness :
    isServiceActiveOnDate envW "SVC" nowW = true ∧
    isServiceActiveOnDate envW "missing" nowW = false := by
  constructor
  · exact (isServiceActiveOnDate_spec envW "SVC" nowW).mpr
      ⟨calW, by decide, by decide, by decide, Or.inr ⟨by decide, by decide⟩⟩
  · by_contra hc
    rw [Bool.not_eq_false] at hc
    obtain ⟨cal, hcal, -⟩ := (isServiceActiveOnDate_spec envW "missing" nowW).mp hc
    have hnone : envW.calendar "missing" = none := rfl
    rw [hnone] at hcal
    cases hcal

/-- C5: `getUpcomingRoute` returns "no prediction" (`none`) — not an
error — for an unknown tripId, for a trip whose service is inactive on
`now`'s date, and for a trip with missing or empty stop-times. -/
theorem getUpcomingRoute_noPrediction (env : Env) (tripId : String) (curLat curLon : ℚ)
    (now : DateTime) :
    (env.trips tripId = none → getUpcomingRoute env tripId curLat curLon now = none) ∧
    (∀ trip, env.trips tripId = some trip →
      isServiceActiveOnDate env trip.serviceId now = false →
      getUpcomingRoute env tripId curLat curLon now = none) ∧
    (∀ trip, env.trips tripId = some trip →
      (env.stopTimes tripId = none ∨ env.stopTimes tripId = some []) →
      getUpcomingRoute env tripId curLat curLon now = none) := by
  refine ⟨?_, ?_, ?_⟩
  · intro h
    unfold getUpcomingRoute
    rw [h]
  · intro trip htrip hinactive
    unfold getUpcomingRoute
    rw [htrip]
    simp only [hinactive, Bool.false_eq_true, not_false_eq_true, if_true]
  · intro trip htrip hst
    unfold getUpcomingRoute
    rw [htrip]
    simp only []
    by_cases hact : isServiceActiveOnDate env trip.serviceId now = true
    · rw [if_neg (by simp [hact])]
      rcases hst with h | h
      · rw [h]
      · rw [h]; norm_num
    · rw [if_pos (by simpa using hact)]

/-- C5 witness: the fixture store does not know trip `nope`, and the
predictor returns `none` for it. -/
theorem getUpcomingRoute_noPrediction_witness :
    envW.trips "nope" = none ∧ getUpcomingRoute envW "nope" 0 0 nowW = none := by
  have h := (getUpcomingRoute_noPrediction envW "nope" 0 0 nowW).1 (by decide)
  exact ⟨by decide, h⟩

/-- C6: a failed trip-update refresh (fetch rejection, HTTP error
status, or decode error) leaves every `getStopPrediction` result
unchanged. -/
theorem tripUpdates_failure_retains (r : FetchOutcome (List TripUpdateEntity)) (cache : Cache)
    (h : r.isFailure) (tripId : String) (stopSequence : Nat) :
    getStopPrediction (fetchTripUpdatesStep r cache) tripId stopSequence =
      getStopPrediction cache tripId stopSequence := by
  cases r with
  | fetchError => rfl
  | httpError status => rfl
  | decodeError => rfl
  | ok entities => exact absurd h (by simp [FetchOutcome.isFailure])

/-- C6 witness: a decode failure leaves the cached delay-only
prediction readable, unchanged. -/
theorem tripUpdates_failure_retains_witness :
    FetchOutcome.isFailure (FetchOutcome.decodeError : FetchOutcome (List TripUpdateEntity)) ∧
    getStopPrediction (fetchTripUpdatesStep FetchOutcome.decodeError cacheC4) "T1" 2 =
      getStopPrediction cacheC4 "T1" 2 ∧
    getStopPrediction cacheC4 "T1" 2 = some predDelay120 :=
  ⟨trivial, tripUpdates_failure_retains FetchOutcome.decodeError cacheC4 trivial "T1" 2, rfl⟩

/-- C8: a failed vehicle-position cycle (fetch rejection, HTTP error
status, or decode error) publishes nothing: `getBuses` and `getRoutes`
return exactly the previous snapshot for every group. -/
theorem positionFeed_failure_retains (cfg : BusConfig) (env : Env)
    (r : FetchOutcome (List VehicleEntity)) (now : DateTime) (s : CurrentData)
    (h : r.isFailure) (mode : Mode) :
    getBuses mode (fetchVehiclePositionsStep cfg env r now s) = getBuses mode s ∧
    getRoutes mode (fetchVehiclePositionsStep cfg env r now s) = getRoutes mode s := by
  cases r with
  | fetchError => exact ⟨rfl, rfl⟩
  | httpError status => exact ⟨rfl, rfl⟩
  | decodeError => exact ⟨rfl, rfl⟩
  | ok entities => exact absurd h (by simp [FetchOutcome.isFailure])

/-- C8 witness: an HTTP-status failure leaves the non-empty holiday
snapshot in place. -/
theorem positionFeed_failure_retains_witness :
    FetchOutcome.isFailure (FetchOutcome.httpError 500 : FetchOutcome (List VehicleEntity)) ∧
    getBuses Mode.holiday
        (fetchVehiclePositionsStep ⟨[]⟩ envW (FetchOutcome.httpError 500) nowW sC8) =
      getBuses Mode.holiday sC8 ∧
    (getBuses Mode.holiday sC8).length = 1 := by
  have h := positionFeed_failure_retains ⟨[]⟩ envW (FetchOutcome.httpError 500) nowW sC8
    trivial Mode.holiday
  exact ⟨trivial, h.1, by decide⟩

/-- C7 (amended): a trip present in the cache after a successful refresh
has at least one stop-time update keyed by a `stopSequence` — that, not
the presence of a timestamp or delay, is what the refresh requires. -/
theorem tripInCache_hasSequencedUpdate (entities : List TripUpdateEntity) (tid : String)
    (m : PredMap) (h : fetchTripUpdatesStep (FetchOutcome.ok entities) emptyCache tid = some m) :
    (∃ seq, (m seq).isSome = true) ∧
    ∃ ent ∈ entities, ent.tripId = some tid ∧ keyedUpdates ent.stopTimeUpdates ≠ [] := by
  have h2 := foldCache_mem entities emptyCache tid m h
  rcases h2 with h2 | ⟨ent, hmem, htid, hne, hm⟩
  · exact absurd h2 (by simp [emptyCache])
  · exact ⟨hm ▸ buildStopUpdates_nonempty _ hne, ent, hmem, htid, hne⟩

/-- C7 witness: a feed with one delay-carrying update for trip `t2`
leaves `t2` in the cache, and the theorem applies to it. -/
theorem tripInCache_hasSequencedUpdate_witness :
    fetchTripUpdatesStep (FetchOutcome.ok [entC7b]) emptyCache "t2" =
      some (buildStopUpdates entC7b.stopTimeUpdates) ∧
    keyedUpdates entC7b.stopTimeUpdates ≠ [] := by
  have h := tripInCache_hasSequencedUpdate [entC7b] "t2"
    (buildStopUpdates entC7b.stopTimeUpdates) rfl
  obtain ⟨-, ent, hmem, -, hne⟩ := h
  rw [List.mem_singleton] at hmem
  subst hmem
  exact ⟨rfl, hne⟩

/-- C7 counterexample: the claim as stated is false — a trip whose only
stop-time update carries a `stopSequence` but neither a timestamp nor a
delay still appears in the cache after a successful refresh, with every
prediction field null. -/
theorem tripInCache_hasSequencedUpdate_cex :
    ((fetchTripUpdatesStep (FetchOutcome.ok [entC7]) emptyCache) "t").isSome = true ∧
    getStopPrediction (fetchTripUpdatesStep (FetchOutcome.ok [entC7]) emptyCache) "t" 5 =
      some { stopId := some "s", arrivalTime := none, arrivalDelay := none
           , departureTime := none, departureDelay := none } := by
  constructor
  · rfl
  · rfl

/-- C4: an included stop whose prediction carries a delay but no
absolute arrival timestamp gets effective time = scheduled + delay, a
predicted time string formatted from that sum, `arrivalDelay` equal to
the delay, and `isRealTime = true`. -/
theorem delayOnlyPrediction_fields (env : Env) (tripId : String) (now : DateTime)
    (st : StopTime) (sched : Int) (p : Prediction) (d : Int)
    (hs : st.arrivalSeconds = some sched)
    (hp : getStopPrediction env.cache tripId st.stopSequence = some p)
    (ha : p.arrivalTime = none)
    (hd : p.arrivalDelay = some d) :
    (effectiveData env tripId st sched).1 = sched + d ∧
    ∀ u, buildStopRecord env tripId now st = some u →
      u.predictedArrivalTime = some (formatHMS (sched + d)) ∧
      u.arrivalDelay = some d ∧
      u.isRealTime = true := by
  have heff : effectiveData env tripId st sched =
      (sched + d, some (formatHMS (sched + d)), some d, true) := by
    unfold effectiveData
    rw [hp]
    simp only [ha, hd]
  refine ⟨by rw [heff], ?_⟩
  intro u hu
  unfold buildStopRecord at hu
  rw [hs] at hu
  simp only [heff] at hu
  split at hu
  · split at hu
    · cases hu
    · cases hu
      exact ⟨rfl, rfl, rfl⟩
  · cases hu

/-- C4 witness: delay 120 on the 08:10:00 stop yields effective time
08:12:00 (29520 s), predicted string `08:12:00`, delay 120, real-time. -/
theorem delayOnlyPrediction_fields_witness :
    (effectiveData envC4 "T1" st0810 29400).1 = 29520 ∧
    (buildStopRecord envC4 "T1" nowW st0810).map
        (fun u => (u.predictedArrivalTime, u.arrivalDelay, u.isRealTime)) =
      some (some "08:12:00", some 120, true) := by
  have h := delayOnlyPrediction_fields envC4 "T1" nowW st0810 29400 predDelay120 120
    rfl rfl rfl rfl
  exact ⟨h.1.trans (by decide), by decide⟩

/-- C10: a prediction carrying only departure information (both arrival
fields absent) is ignored: effective time stays the scheduled arrival,
no predicted time or delay is reported, and `isRealTime` is false. -/
theorem departureOnlyPrediction_ignored (env : Env) (tripId : String) (now : DateTime)
    (st : StopTime) (sched : Int) (p : Prediction)
    (hs : st.arrivalSeconds = some sched)
    (hp : getStopPrediction env.cache tripId st.stopSequence = some p)
    (ha : p.arrivalTime = none)
    (hd : p.arrivalDelay = none)
    (_hdep : p.departureTime ≠ none ∨ p.departureDelay ≠ none) :
    (effectiveData env tripId st sched).1 = sched ∧
    ∀ u, buildStopRecord env tripId now st = some u →
      u.predictedArrivalTime = none ∧
      u.arrivalDelay = none ∧
      u.isRealTime = false := by
  have heff : effectiveData env tripId st sched = (sched, none, none, false) := by
    unfold effectiveData
    rw [hp]
    simp only [ha, hd]
  refine ⟨by rw [heff], ?_⟩
  intro u hu
  unfold buildStopRecord at hu
  rw [hs] at hu
  simp only [heff] at hu
  split at hu
  · split at hu
    · cases hu
    · cases hu
      exact ⟨rfl, rfl, rfl⟩
  · cases hu

/-- C10 witness: a cached departure-only prediction for the 08:10:00
stop leaves the emitted record schedule-based and not real-time. -/
theorem departureOnlyPrediction_ignored_witness :
    getStopPrediction envC10.cache "T1" 2 = some predDepOnly ∧
    (effectiveData envC10 "T1" st0810 29400).1 = 29400 ∧
    (buildStopRecord envC10 "T1" nowW st0810).map
        (fun u => (u.predictedArrivalTime, u.arrivalDelay, u.isRealTime)) =
      some (none, none, false) := by
  have h := departureOnlyPrediction_ignored envC10 "T1" nowW st0810 29400 predDepOnly
    rfl rfl rfl rfl (Or.inl (by decide))
  exact ⟨rfl, h.1, by decide⟩

/-- C1 (amended): for a known trip with active service and non-empty
stop-times, a stop-time entry with a parseable scheduled arrival is
included in the upcoming-stop list iff its `stopId` resolves to a known
stop and its effective arrival time (real-time-adjusted when a
prediction exists, otherwise the scheduled arrival) lies in
`[nowSec - 60, nowSec + 1800]`. -/
theorem getUpcomingRoute_window (env : Env) (tripId : String) (curLat curLon : ℚ)
    (now : DateTime) (trip : Trip) (sts : List StopTime)
    (h1 : env.trips tripId = some trip)
    (h2 : isServiceActiveOnDate env trip.serviceId now = true)
    (h3 : env.stopTimes tripId = some sts)
    (h4 : sts ≠ []) :
    ∃ res, getUpcomingRoute env tripId curLat curLon now = some res ∧
      res.upcomingStops = sts.filterMap (buildStopRecord env tripId now) ∧
      ∀ st ∈ sts, ∀ sched, st.arrivalSeconds = some sched →
        ((buildStopRecord env tripId now st).isSome = true ↔
          ((env.stops st.stopId).isSome = true ∧
            now.secondsOfDay - 60 ≤ (effectiveData env tripId st sched).1 ∧
            (effectiveData env tripId st sched).1 ≤ now.secondsOfDay + 1800)) := by
  refine ⟨_, getUpcomingRoute_eq_of_valid env tripId curLat curLon now trip sts h1 h2 h3 h4,
    rfl, ?_⟩
  intro st _ sched hs
  exact buildStopRecord_isSome env tripId now st sched hs

/-- C1 witness: with stop-times 08:00:00 / 08:10:00 / 08:45:00 and
`now` = 08:05:00, exactly the 08:10:00 stop is included; at 08:01:00 the
08:00:00 stop is still included, at 08:01:01 it no longer is. -/
theorem getUpcomingRoute_window_witness :
    ((getUpcomingRoute envW "T1" 0 5 nowW).map RouteResult.upcomingStops).map
        (List.map UpcomingStop.stopId) = some ["S1"] ∧
    (buildStopRecord envW "T1" nowW st0810).isSome = true ∧
    (buildStopRecord envW "T1" nowW st0800).isSome = false ∧
    (buildStopRecord envW "T1" nowW st0845).isSome = false ∧
    (buildStopRecord envW "T1" { nowW with secondsOfDay := 28860 } st0800).isSome = true ∧
    (buildStopRecord envW "T1" { nowW with secondsOfDay := 28861 } st0800).isSome = false := by
  have h := getUpcomingRoute_window envW "T1" 0 5 nowW tripW [st0800, st0810, st0845]
    rfl (by decide) rfl (by decide)
  obtain ⟨res, hres, hups, hiff⟩ := h
  refine ⟨by decide, ?_, by decide, by decide, by decide, by decide⟩
  exact (hiff st0810 (by decide) 29400 rfl).mpr ⟨by decide, by decide, by decide⟩

/-- C1 counterexample: the claim's "if and only if" fails when the
stop-time's `stopId` does not resolve in the stop table — here the
08:10:00 stop's effective time lies inside the window for a known trip
with active service, yet the upcoming-stop list is empty. -/
theorem getUpcomingRoute_window_cex :
    (envC1.trips "T1").isSome = true ∧
    isServiceActiveOnDate envC1 tripW.serviceId nowW = true ∧
    envC1.stopTimes "T1" = some [st0800, st0810, st0845] ∧
    st0810.arrivalSeconds = some 29400 ∧
    (nowW.secondsOfDay - 60 ≤ (effectiveData envC1 "T1" st0810 29400).1 ∧
      (effectiveData envC1 "T1" st0810 29400).1 ≤ nowW.secondsOfDay + 1800) ∧
    (getUpcomingRoute envC1 "T1" 0 5 nowW).map RouteResult.upcomingStops = some [] := by
  exact ⟨by decide, by decide, by decide, rfl, ⟨by decide, by decide⟩, by decide⟩

/-- C2: when the trip's shape resolves to a non-empty point list, a
geometry is emitted iff the vehicle's projected index does not exceed
the endpoint index and the segment has at least two points; the emitted
line is exactly the shape points from the vehicle's index to the
endpoint index inclusive (so its length is `end - cur + 1`); an
unresolvable or empty shape yields no geometry. -/
theorem getUpcomingRoute_geometry (env : Env) (tripId : String) (curLat curLon : ℚ)
    (now : DateTime) (res : RouteResult) (trip : Trip)
    (hres : getUpcomingRoute env tripId curLat curLon now = some res)
    (htrip : env.trips tripId = some trip) :
    (∀ sid pts, trip.shapeId = some sid → sid ≠ "" → env.shapes sid = some pts → pts ≠ [] →
      ((res.routeGeometry.isSome = true ↔
        (findClosestShapePoint env.dist pts curLat curLon ≤
            endShapeIdx env pts res.upcomingStops ∧
          2 ≤ endShapeIdx env pts res.upcomingStops + 1 -
            findClosestShapePoint env.dist pts curLat curLon)) ∧
      ∀ g, res.routeGeometry = some g →
        g = ((pts.drop (findClosestShapePoint env.dist pts curLat curLon)).take
              (endShapeIdx env pts res.upcomingStops + 1 -
                findClosestShapePoint env.dist pts curLat curLon)).map
            (fun p => (p.lon, p.lat)) ∧
        g.length = endShapeIdx env pts res.upcomingStops -
          findClosestShapePoint env.dist pts curLat curLon + 1)) ∧
    ((trip.shapeId = none ∨ trip.shapeId = some "" ∨
        (∀ sid, trip.shapeId = some sid → env.shapes sid = none ∨ env.shapes sid = some [])) →
      res.routeGeometry = none) := by
  have hgeom : res.routeGeometry =
      buildGeometry env trip curLat curLon res.upcomingStops := by
    unfold getUpcomingRoute at hres
    rw [htrip] at hres
    simp only [] at hres
    split at hres
    · cases hres
    · split at hres
      · cases hres
      · split at hres
        · cases hres
        · injection hres with h
          subst h
          rfl
  constructor
  · intro sid pts hsid hsid' hshapes hpts
    rw [hgeom]
    unfold buildGeometry
    rw [hsid]
    simp only []
    rw [if_neg hsid', hshapes]
    simp only []
    rw [if_neg (by simpa [List.length_eq_zero] using hpts)]
    have hel : endShapeIdx env pts res.upcomingStops < pts.length :=
      endShapeIdx_lt env pts res.upcomingStops hpts
    by_cases hce : findClosestShapePoint env.dist pts curLat curLon ≤
        endShapeIdx env pts res.upcomingStops
    · rw [if_pos hce]
      have hseglen : ((pts.drop (findClosestShapePoint env.dist pts curLat curLon)).take
          (endShapeIdx env pts res.upcomingStops + 1 -
            findClosestShapePoint env.dist pts curLat curLon)).length =
          endShapeIdx env pts res.upcomingStops + 1 -
            findClosestShapePoint env.dist pts curLat curLon := by
        simp only [List.length_take, List.length_drop]
        omega
      by_cases h2seg : 2 ≤ endShapeIdx env pts res.upcomingStops + 1 -
          findClosestShapePoint env.dist pts curLat curLon
      · rw [if_pos (by rw [hseglen]; exact h2seg)]
        refine ⟨by simp [hce, h2seg], ?_⟩
        intro g hg
        injection hg with hg
        subst hg
        refine ⟨rfl, ?_⟩
        rw [List.length_map, hseglen]
        omega
      · rw [if_neg (by rw [hseglen]; exact h2seg)]
        refine ⟨by simp [h2seg], ?_⟩
        intro g hg
        cases hg
    · rw [if_neg hce]
      refine ⟨by simp [hce], ?_⟩
      intro g hg
      cases hg
  · intro hcases
    rw [hgeom]
    unfold buildGeometry
    rcases hcases with h | h | h
    · rw [h]
    · rw [h]
      simp
    · cases hsid : trip.shapeId with
      | none => rfl
      | some sid =>
        simp only []
        by_cases hempty : sid = ""
        · rw [if_pos hempty]
        · rw [if_neg hempty]
          rcases h sid hsid with hnone | hnil
          · rw [hnone]
          · rw [hnil]
            simp

/-- C2 witness: on the fixture shape the vehicle at `(0, 5)` projects to
index 5, the last upcoming stop to index 20, and the emitted LineString
has exactly 16 coordinate pairs. -/
theorem getUpcomingRoute_geometry_witness :
    ((getUpcomingRoute envW "T1" 0 5 nowW).map RouteResult.routeGeometry).map
        (Option.map List.length) = some (some 16) ∧
    findClosestShapePoint envW.dist shapeW 0 5 = 5 := by
  have hres : getUpcomingRoute envW "T1" 0 5 nowW =
      some ((getUpcomingRoute envW "T1" 0 5 nowW).getD
        { tripId := "", routeId := "", headsign := none, directionId := none
        , upcomingStops := [], routeGeometry := none }) := by decide
  have h := getUpcomingRoute_geometry envW "T1" 0 5 nowW
    ((getUpcomingRoute envW "T1" 0 5 nowW).getD
      { tripId := "", routeId := "", headsign := none, directionId := none
      , upcomingStops := [], routeGeometry := none }) tripW hres rfl
  have h1 := h.1 "SH1" shapeW rfl (by decide) rfl (by decide)
  have hcur : findClosestShapePoint envW.dist shapeW 0 5 = 5 := by decide
  have he : endShapeIdx envW shapeW
      ((getUpcomingRoute envW "T1" 0 5 nowW).getD
        { tripId := "", routeId := "", headsign := none, directionId := none
        , upcomingStops := [], routeGeometry := none }).upcomingStops = 20 := by decide
  obtain ⟨hiff, hg⟩ := h1
  have hgsome : (((getUpcomingRoute envW "T1" 0 5 nowW).getD
      { tripId := "", routeId := "", headsign := none, directionId := none
      , upcomingStops := [], routeGeometry := none }).routeGeometry).isSome = true :=
    hiff.mpr (by rw [hcur, he]; exact ⟨by norm_num, by norm_num⟩)
  obtain ⟨g, hgeq⟩ := Option.isSome_iff_exists.mp hgsome
  have hlen := (hg g hgeq).2
  rw [hcur, he] at hlen
  refine ⟨?_, hcur⟩
  rw [hres]
  simp only [Option.map_some']
  rw [hgeq]
  simp only [Option.map_some']
  rw [hlen]
